import Mathlib

/-!
Shallow embedding of `src/app.py`, a FastAPI + Supabase service: pydantic
models for the `session_metadata` and `event_log` tables, the
`get_supabase_client` dependency, the CRUD endpoints, and the websocket
`ConnectionManager` with its `websocket_endpoint` receive loop.

Modelling conventions: UUIDs and timestamps are naturals; a websocket
object is identified by a `String`; the Supabase store is a list of rows;
an HTTP response is `Except HTTPException α`; Python exceptions raised by
plain library calls (`list.remove`) are `PyError`.
-/

namespace App

/-- Result of `raise HTTPException(status_code=..., detail=...)`: a FastAPI
HTTP error response carrying a status code and a detail string. In Python,
`fastapi.HTTPException` is a subclass of `Exception`, so a broad
`except Exception` clause catches it; the embedding of each endpoint's
`try`/`except` reflects that. -/
structure HTTPException where
  status_code : Nat
  detail : String
deriving Repr, DecidableEq

/-- Python exceptions other than `HTTPException` arising in the embedded
code: `list.remove(x)` raises `ValueError` when `x` is absent. -/
inductive PyError where
  | valueError : PyError
deriving Repr, DecidableEq

/-- Row of the `session_metadata` table (`SessionMetadata` pydantic model,
src/app.py lines 8-13). -/
structure SessionMetadata where
  session_id : Nat
  user_id : String
  start_time : Nat
  end_time : Option Nat
  summary : Option String
deriving Repr, DecidableEq

/-- Row of the `event_log` table (`EventLog` pydantic model, src/app.py
lines 16-21). -/
structure EventLog where
  event_id : Nat
  session_id : Nat
  timestamp : Nat
  event_type : String
  event_data : String
deriving Repr, DecidableEq

/-- Python truthiness of an environment variable as read by `os.getenv`:
`not x` holds when the variable is unset (`None`) or the empty string, which
is the guard `if not supabase_url or not supabase_key` (src/app.py line 35). -/
def truthy : Option String → Bool
  | none => false
  | some s => !s.isEmpty

/-- Embedding of `get_supabase_client` (src/app.py lines 31-48): the FastAPI
dependency resolved per request for every store-backed endpoint. When either
environment variable is missing or empty it raises HTTPException 500; client
construction itself is modelled as succeeding (the client carries no data
here, the store contents are passed to each endpoint separately). -/
def get_supabase_client (supabase_url supabase_key : Option String) :
    Except HTTPException Unit :=
  if truthy supabase_url && truthy supabase_key then .ok ()
  else .error ⟨500, "Supabase credentials not found in environment variables."⟩

/-- Embedding of
`supabase.table("session_metadata").select("*").eq("session_id", sid).single().execute()`
(src/app.py line 83): the `data` field of the response, the matching row when
one exists. -/
def sessionQuery (store : List SessionMetadata) (sid : Nat) :
    Option SessionMetadata :=
  (store.filter (fun s => s.session_id == sid)).head?

/-- Embedding of the `get_session` endpoint body (src/app.py lines 77-88).
The `try` block returns the row when `response.data` is truthy and otherwise
raises HTTPException 404; but the enclosing `except Exception as e` clause
also catches that HTTPException (it subclasses `Exception`) and re-raises
HTTPException 500 with detail `f"Database error: {e}"`, where `str(e)` of a
FastAPI HTTPException is `"{status_code}: {detail}"`. -/
def get_session (store : List SessionMetadata) (sid : Nat) :
    Except HTTPException SessionMetadata :=
  let tryBlock : Except HTTPException SessionMetadata :=
    match sessionQuery store sid with
    | some r => .ok r
    | none => .error ⟨404, "Session not found"⟩
  match tryBlock with
  | .ok r => .ok r
  | .error e =>
      .error ⟨500, "Database error: " ++ toString e.status_code ++ ": " ++ e.detail⟩

/-- Embedding of
`supabase.table("event_log").select("*").eq("session_id", sid).order("timestamp").execute()`
(src/app.py line 111): the rows whose `session_id` matches, ordered by
`timestamp` (Supabase `.order` defaults to ascending). -/
def eventsQuery (store : List EventLog) (sid : Nat) : List EventLog :=
  (store.filter (fun e => e.session_id == sid)).insertionSort
    (fun a b => a.timestamp ≤ b.timestamp)

/-- Embedding of the `get_events_for_session` endpoint body (src/app.py
lines 105-116): returns the ordered query data when it is truthy (nonempty),
and otherwise explicitly returns the empty list (line 114) — both are
success responses. -/
def get_events_for_session (store : List EventLog) (sid : Nat) :
    Except HTTPException (List EventLog) :=
  let data := eventsQuery store sid
  if !data.isEmpty then .ok data else .ok []

/-- The `get_session` endpoint with its `Depends(get_supabase_client)`
dependency resolved first, as FastAPI does on each request: a dependency
failure becomes the response of the request. -/
def get_session_endpoint (supabase_url supabase_key : Option String)
    (store : List SessionMetadata) (sid : Nat) :
    Except HTTPException SessionMetadata :=
  match get_supabase_client supabase_url supabase_key with
  | .error e => .error e
  | .ok _ => get_session store sid

/-- Embedding of `ConnectionManager.connect` (src/app.py lines 128-130):
accept the websocket, then `self.active_connections.append(websocket)`.
There is no duplicate check of any kind. -/
def connect (active_connections : List String) (websocket : String) :
    List String :=
  active_connections ++ [websocket]

/-- Embedding of `ConnectionManager.disconnect` (src/app.py lines 132-133):
`self.active_connections.remove(websocket)`. Python's `list.remove` deletes
the first occurrence and raises `ValueError` when the element is absent. -/
def disconnect (active_connections : List String) (websocket : String) :
    Except PyError (List String) :=
  if websocket ∈ active_connections then .ok (active_connections.erase websocket)
  else .error .valueError

/-- Embedding of `ConnectionManager.broadcast` (src/app.py lines 138-140) in
the failure-free case: `for connection in self.active_connections: await
connection.send_text(message)`. The method has no `excluding` parameter; the
result is the ordered list of (recipient, message) sends. -/
def broadcast (active_connections : List String) (message : String) :
    List (String × String) :=
  active_connections.map (fun c => (c, message))

/-- Embedding of `ConnectionManager.broadcast` when individual sends can
raise: the body is a plain `for` loop with no `try`/`except` around the
`await connection.send_text(message)`, so the first raising send aborts the
loop and the exception propagates to `broadcast`'s caller
(`send_personal_message` likewise has no failure handling and calls no
`disconnect`). Returns the connections that received the message before the
failure, together with the failing connection when one exists. -/
def broadcast_fallible (active_connections : List String)
    (sendFails : String → Bool) : List String × Option String :=
  match active_connections with
  | [] => ([], none)
  | c :: rest =>
    if sendFails c then ([], some c)
    else
      let r := broadcast_fallible rest sendFails
      (c :: r.1, r.2)

/-- Embedding of one iteration of the `websocket_endpoint` receive loop
(src/app.py lines 148-151) for inbound text `data`: first
`send_personal_message(f"You wrote: {data}", websocket)` to the sender, then
`broadcast(f"Client #{client_id} says: {data}")` over every active
connection. The loop contains no Supabase call, so no `EventLog` row is ever
written. Result: the ordered (recipient, message) sends, and the list of
event rows recorded. -/
def handle_message (active_connections : List String) (sender : String)
    (client_id : String) (data : String) :
    List (String × String) × List EventLog :=
  ((sender, "You wrote: " ++ data) ::
      broadcast active_connections ("Client #" ++ client_id ++ " says: " ++ data),
    [])

/-- Embedding of the `WebSocketDisconnect` handler of `websocket_endpoint`
(src/app.py lines 152-154): `manager.disconnect(websocket)` followed by
`broadcast(f"Client #{client_id} left the chat")` over the remaining
connections. Returns the remaining connections and the departure sends, or
the Python error raised by `disconnect`. -/
def leave (active_connections : List String) (websocket : String)
    (client_id : String) :
    Except PyError (List String × List (String × String)) :=
  match disconnect active_connections websocket with
  | .error e => .error e
  | .ok remaining =>
      .ok (remaining, broadcast remaining ("Client #" ++ client_id ++ " left the chat"))

/-- One operation of a websocket task on the shared `ConnectionManager`:
the `manager.connect` call of `websocket_endpoint`'s entry, or the
`manager.disconnect` call of its disconnect handler. -/
inductive WsOp where
  | conn (c : String)
  | disc (c : String)
deriving Repr, DecidableEq

/-- Runs a sequence of connect/disconnect operations against the shared
`active_connections` list, propagating the `ValueError` of a failing
`disconnect`. -/
def runOps : List WsOp → List String → Except PyError (List String)
  | [], s => .ok s
  | WsOp.conn c :: rest, s => runOps rest (connect s c)
  | WsOp.disc c :: rest, s =>
    match disconnect s c with
    | .error e => .error e
    | .ok s2 => runOps rest s2

/-- Number of `conn x` operations in a trace. -/
def countConn : List WsOp → String → Nat
  | [], _ => 0
  | WsOp.conn c :: rest, x => (if c = x then 1 else 0) + countConn rest x
  | WsOp.disc _ :: rest, x => countConn rest x

/-- Number of `disc x` operations in a trace. -/
def countDisc : List WsOp → String → Nat
  | [], _ => 0
  | WsOp.conn _ :: rest, x => countDisc rest x
  | WsOp.disc c :: rest, x => (if c = x then 1 else 0) + countDisc rest x

/-- Embedding of the `for connection in self.active_connections` loop of
`broadcast` under one concurrent mutation. A Python list iterator keeps a
position index into the live list it aliases; each `await ... send_text` is
a suspension point where another task may run `manager.disconnect`. This
models the iteration in which, right after send number `removeAfter`
completes, a concurrent task erases `victim` from the live list. The `fuel`
argument only bounds recursion depth; `broadcastLoop` supplies enough fuel
that it never runs out. -/
def broadcastGo (fuel : Nat) (state : List String) (i : Nat)
    (removeAfter : Nat) (victim : String) : List String :=
  match fuel with
  | 0 => []
  | fuel + 1 =>
    if h : i < state.length then
      state.get ⟨i, h⟩ ::
        broadcastGo fuel (if i = removeAfter then state.erase victim else state)
          (i + 1) removeAfter victim
    else []

/-- The delivery list of one `broadcast` over `state` during which `victim`
is concurrently removed right after send number `removeAfter`. -/
def broadcastLoop (state : List String) (removeAfter : Nat) (victim : String) :
    List String :=
  broadcastGo state.length state 0 removeAfter victim

/-- Modelled from the spec: `snapshotForBroadcast()`-then-iterate broadcast —
a point-in-time immutable copy is taken, so every connection live at
snapshot time receives the message regardless of any concurrent removal. -/
def broadcastSnapshotSpec (snapshot : List String) : List String := snapshot

instance : IsTotal EventLog (fun a b => a.timestamp ≤ b.timestamp) :=
  ⟨fun a b => Nat.le_total a.timestamp b.timestamp⟩

instance : IsTrans EventLog (fun a b => a.timestamp ≤ b.timestamp) :=
  ⟨fun _ _ _ => Nat.le_trans⟩

/-- Claim C1, counterexample: with live connections X and Y and sender X
sending "hi", the broadcast tagged with the sender's identifier IS delivered
back to the sender X — `broadcast` has no `excluding` parameter, so the
sender is echoed its own message via the broadcast path. -/
theorem C1_counterexample :
    ("X", "Client #X says: hi") ∈ (handle_message ["X", "Y"] "X" "X" "hi").1 :=
  List.Mem.tail _ (List.Mem.head _)

/-- Claim C1, amended: `broadcast` delivers the message to every active
connection with no exclusion; in particular a sender that is among the
active connections receives the broadcast tagged with its own identifier, in
addition to the personal echo. -/
theorem C1_broadcast_includes_sender (conns : List String)
    (sender cid data : String) (h : sender ∈ conns) :
    (sender, "Client #" ++ cid ++ " says: " ++ data) ∈
      (handle_message conns sender cid data).1 :=
  List.mem_cons_of_mem _ (List.mem_map_of_mem _ h)

/-- Claim C1, witness for the amended theorem at a concrete input. -/
theorem C1_broadcast_includes_sender_witness :
    ("X", "Client #" ++ "1" ++ " says: " ++ "hi") ∈
      (handle_message ["X", "Y"] "X" "1" "hi").1 :=
  C1_broadcast_includes_sender ["X", "Y"] "X" "1" "hi" (List.mem_cons_self "X" ["Y"])

/-- Claim C2, counterexample: broadcasting over connections A, B, C where the
send to A raises delivers the message to nobody else — B and C receive
nothing — and the exception propagates to `broadcast`'s caller instead of
being handled by any implicit-disconnect path. -/
theorem C2_counterexample :
    broadcast_fallible ["A", "B", "C"] (fun c => c == "A") = ([], some "A") :=
  rfl

/-- Claim C2, amended: a send failure during `broadcast` aborts the loop:
exactly the connections strictly before the first failing one in iteration
order receive the message, and the exception propagates to the caller; no
`leave`/implicit disconnect occurs on the failure path. -/
theorem C2_failure_aborts_broadcast (pre post : List String) (f : String)
    (sendFails : String → Bool) (hpre : ∀ c ∈ pre, sendFails c = false)
    (hf : sendFails f = true) :
    broadcast_fallible (pre ++ f :: post) sendFails = (pre, some f) := by
  induction pre with
  | nil => simp [broadcast_fallible, hf]
  | cons c rest ih =>
    have hc : sendFails c = false := hpre c (List.mem_cons_self c rest)
    have hrest : ∀ x ∈ rest, sendFails x = false := fun x hx =>
      hpre x (List.mem_cons_of_mem c hx)
    simp [broadcast_fallible, hc, ih hrest]

/-- Claim C2, witness for the amended theorem at a concrete input. -/
theorem C2_failure_aborts_broadcast_witness :
    broadcast_fallible (["A"] ++ "B" :: ["C"]) (fun c => c == "B") =
      (["A"], some "B") :=
  C2_failure_aborts_broadcast ["A"] ["C"] "B" (fun c => c == "B")
    (by decide) rfl

/-- Claim C4, code bug: `GET /sessions/{id}` for a nonexistent id returns
HTTP 500, not 404. The `HTTPException(404)` raised inside the `try` block is
itself an `Exception` in Python, so the endpoint's catch-all
`except Exception` clause converts it into a 500 whose detail wraps the 404
message. Evaluated at the failing input: empty store, id 7. -/
theorem C4_missing_session_returns_500 :
    get_session [] 7 =
      .error ⟨500, "Database error: 404: Session not found"⟩ :=
  rfl

/-- Claim C5, counterexample: with live connection X, the first `leave`
succeeds (removing X and broadcasting the departure to the remaining, empty,
set), but the second `leave` on the same connection raises `ValueError` from
`list.remove` instead of being a no-op. -/
theorem C5_counterexample :
    leave ["X"] "X" "1" = .ok ([], []) ∧
      leave [] "X" "1" = .error PyError.valueError :=
  ⟨rfl, rfl⟩

/-- Claim C5, amended: `leave` is not idempotent. When the connection is
present exactly once, the first `leave` removes it and broadcasts one
departure notice to the remaining connections, and a second `leave` raises
`ValueError`: removing an absent connection is an error, not a no-op. -/
theorem C5_leave_not_idempotent (conns : List String) (w cid : String)
    (h : conns.count w = 1) :
    leave conns w cid =
        .ok (conns.erase w,
          broadcast (conns.erase w) ("Client #" ++ cid ++ " left the chat")) ∧
      leave (conns.erase w) w cid = .error PyError.valueError := by
  have hw : w ∈ conns := List.count_pos_iff.mp (by omega)
  have hz : (conns.erase w).count w = 0 := by
    rw [List.count_erase_self, h]
  have hnot : w ∉ conns.erase w := List.not_mem_of_count_eq_zero hz
  constructor
  · simp [leave, disconnect, hw]
  · simp [leave, disconnect, hnot]

/-- Claim C5, witness for the amended theorem at a concrete input. -/
theorem C5_leave_not_idempotent_witness :
    leave ["X", "Y"] "X" "1" =
        .ok ((["X", "Y"] : List String).erase "X",
          broadcast ((["X", "Y"] : List String).erase "X")
            ("Client #" ++ "1" ++ " left the chat")) ∧
      leave ((["X", "Y"] : List String).erase "X") "X" "1" =
        .error PyError.valueError :=
  C5_leave_not_idempotent ["X", "Y"] "X" "1" (by decide)

/-- Claim C3, counterexample: connecting the identifier X twice succeeds —
`connect` appends unconditionally, there is no `DuplicateIdentifier`
failure — and leaves X present twice in the live list. -/
theorem C3_counterexample :
    runOps [WsOp.conn "X", WsOp.conn "X"] [] = .ok ["X", "X"] ∧
      (["X", "X"] : List String).count "X" = 2 :=
  ⟨rfl, by decide⟩

/-- Claim C3, amended: duplicates are allowed (`connect` never fails) and
`disconnect` removes one occurrence, erroring when absent; consequently, for
every trace of connect/disconnect operations that runs without error, each
identifier's multiplicity in the live list equals its initial multiplicity
plus its connects minus its (always-successful) disconnects — stated
additively to avoid truncation. -/
theorem C3_registry_count (ops : List WsOp) (s l : List String)
    (h : runOps ops s = .ok l) (x : String) :
    l.count x + countDisc ops x = s.count x + countConn ops x := by
  induction ops generalizing s with
  | nil =>
    simp only [runOps, Except.ok.injEq] at h
    subst h
    simp [countConn, countDisc]
  | cons op rest ih =>
    cases op with
    | conn c =>
      simp only [runOps] at h
      have h2 := ih (connect s c) h
      by_cases hcx : c = x
      · subst hcx
        have happ : (connect s c).count c = s.count c + 1 := by
          simp [connect]
        simp [countConn, countDisc]
        omega
      · have hx : x ≠ c := fun hh => hcx hh.symm
        have happ : (connect s c).count x = s.count x := by
          simp [connect, hx]
        simp only [countConn, countDisc, if_neg hcx] at h2 ⊢
        omega
    | disc c =>
      simp only [runOps] at h
      unfold disconnect at h
      by_cases hc : c ∈ s
      · rw [if_pos hc] at h
        have h2 := ih (s.erase c) h
        by_cases hcx : c = x
        · subst hcx
          have hpos : 0 < s.count c := List.count_pos_iff.mpr hc
          have he : (s.erase c).count c = s.count c - 1 :=
            List.count_erase_self c s
          simp [countConn, countDisc]
          omega
        · have hx : x ≠ c := fun hh => hcx hh.symm
          have he : (s.erase c).count x = s.count x :=
            List.count_erase_of_ne hx s
          simp only [countConn, countDisc, if_neg hcx] at h2 ⊢
          omega
      · rw [if_neg hc] at h
        exact Except.noConfusion h

/-- Claim C3, witness for the amended theorem: the trace connect X,
connect Y, disconnect X run from the empty registry yields the live list
containing exactly Y, and the count equation holds for X. -/
theorem C3_registry_count_witness :
    (["Y"] : List String).count "X" +
        countDisc [WsOp.conn "X", WsOp.conn "Y", WsOp.disc "X"] "X" =
      ([] : List String).count "X" +
        countConn [WsOp.conn "X", WsOp.conn "Y", WsOp.disc "X"] "X" :=
  C3_registry_count [WsOp.conn "X", WsOp.conn "Y", WsOp.disc "X"] [] ["Y"]
    rfl "X"

/-- Claim C6, counterexample: for inbound "hi" from sender X with another
joined client Y, no Event row is recorded at all (the receive loop never
writes to the event log), and the tagged broadcast is also delivered to X
itself, not only to other clients. -/
theorem C6_counterexample :
    (handle_message ["X", "Y"] "X" "X" "hi").2 = [] ∧
      ("X", "Client #X says: hi") ∈ (handle_message ["X", "Y"] "X" "X" "hi").1 :=
  ⟨rfl, List.Mem.tail _ (List.Mem.head _)⟩

/-- Claim C6, amended: for every inbound message the effects in order are:
(1) the echo `"You wrote: {data}"` is sent first and only to the sender,
(2) no Event is recorded (the loop has no store call), (3) the broadcast
`"Client #{id} says: {data}"` is sent to every active connection — all of
them, not only the other clients. -/
theorem C6_message_effects (conns : List String) (sender cid data : String) :
    (handle_message conns sender cid data).2 = [] ∧
      (handle_message conns sender cid data).1.head? =
        some (sender, "You wrote: " ++ data) ∧
      ∀ c ∈ conns, (c, "Client #" ++ cid ++ " says: " ++ data) ∈
        (handle_message conns sender cid data).1 :=
  ⟨rfl, rfl, fun _ hc => List.mem_cons_of_mem _ (List.mem_map_of_mem _ hc)⟩

/-- Claim C6, witness for the amended theorem at a concrete input. -/
theorem C6_message_effects_witness :
    ("Y", "Client #" ++ "1" ++ " says: " ++ "hi") ∈
      (handle_message ["X", "Y"] "X" "1" "hi").1 :=
  (C6_message_effects ["X", "Y"] "X" "1" "hi").2.2 "Y"
    (List.mem_cons_of_mem "X" (List.mem_cons_self "Y" []))

/-- Helper for claim C7: when the concurrent removal is scheduled outside
the range of indices the iterator visits (so the live list is never mutated
mid-iteration) and the fuel covers the list, the loop delivers to exactly
the suffix of the live list from the starting index on. -/
theorem broadcastGo_no_interference (fuel : Nat) (state : List String)
    (r : Nat) (v : String) (hr : state.length ≤ r) :
    ∀ i, state.length ≤ i + fuel →
      broadcastGo fuel state i r v = state.drop i := by
  induction fuel with
  | zero =>
    intro i hfuel
    rw [List.drop_eq_nil_of_le (by omega)]
    rfl
  | succ fuel ih =>
    intro i hfuel
    by_cases h : i < state.length
    · have hir : ¬ i = r := by omega
      simp only [broadcastGo]
      rw [dif_pos h, if_neg hir, ih (i + 1) (by omega)]
      exact (List.drop_eq_getElem_cons h).symm
    · simp only [broadcastGo]
      rw [dif_neg h, List.drop_eq_nil_of_le (by omega)]

/-- Claim C7, counterexample: `broadcast` iterates the live list itself, not
a point-in-time snapshot. With live connections A, B, C, when a concurrent
task removes A right after the send to A completes, the index-based list
iterator skips B: only A and C receive the message although B is still
live — while the spec's snapshot broadcast delivers to all three. -/
theorem C7_counterexample :
    broadcastLoop ["A", "B", "C"] 0 "A" = ["A", "C"] ∧
      "B" ∈ (["A", "B", "C"] : List String).erase "A" ∧
      broadcastLoop ["A", "B", "C"] 0 "A" ≠
        broadcastSnapshotSpec ["A", "B", "C"] :=
  ⟨rfl, by decide, by decide⟩

/-- Claim C7, amended: `broadcast` iterates `active_connections` directly,
with no snapshot and no lock anywhere; when no concurrent mutation occurs
during the iteration it delivers to every live connection in order, but a
concurrent remove mutates the very collection being iterated and can make
the iterator skip a still-live connection, as the concrete schedule shows. -/
theorem C7_no_snapshot (conns : List String) (v : String) (r : Nat)
    (hr : conns.length ≤ r) :
    broadcastLoop conns r v = conns ∧
      broadcastLoop ["A", "B", "C"] 0 "A" = ["A", "C"] ∧
      "B" ∈ (["A", "B", "C"] : List String).erase "A" := by
  refine ⟨?_, rfl, by decide⟩
  unfold broadcastLoop
  simpa using broadcastGo_no_interference conns.length conns r v hr 0 (by omega)

/-- Claim C7, witness for the amended theorem at a concrete input. -/
theorem C7_no_snapshot_witness :
    broadcastLoop ["X", "Y"] 5 "Q" = ["X", "Y"] :=
  (C7_no_snapshot ["X", "Y"] "Q" 5 (by decide)).1

/-- Claim C8: events retrieved for a given session are returned sorted
non-decreasing by timestamp — the query orders the `event_log` rows by
`timestamp` ascending before the endpoint returns them, and the explicit
empty-list fallback is trivially sorted. -/
theorem C8_events_sorted (store : List EventLog) (sid : Nat)
    (l : List EventLog) (h : get_events_for_session store sid = .ok l) :
    l.Sorted (fun a b => a.timestamp ≤ b.timestamp) := by
  simp only [get_events_for_session] at h
  split at h
  · cases h
    exact List.sorted_insertionSort _ _
  · cases h
    exact List.sorted_nil

/-- Claim C8, witness: a store holding two events of session 5 with
out-of-order timestamps 9 and 3, whose retrieval is sorted. -/
theorem C8_events_sorted_witness :
    (eventsQuery [⟨1, 5, 9, "message", "b"⟩, ⟨2, 5, 3, "message", "a"⟩]
        5).Sorted (fun a b => a.timestamp ≤ b.timestamp) :=
  C8_events_sorted [⟨1, 5, 9, "message", "b"⟩, ⟨2, 5, 3, "message", "a"⟩] 5
    (eventsQuery [⟨1, 5, 9, "message", "b"⟩, ⟨2, 5, 3, "message", "a"⟩] 5) rfl

/-- Claim C9: missing store configuration is detected at call time of a
store-backed endpoint and only there — with the URL or the key unset or
empty, every request to the session-lookup endpoint fails with the
dependency's HTTP 500 error, for any store contents and id, while the
websocket relay handler, which takes no store or environment input at all,
still produces its full send list. -/
theorem C9_store_config_isolated (supabase_url supabase_key : Option String)
    (h : truthy supabase_url = false ∨ truthy supabase_key = false) :
    (∀ store sid, get_session_endpoint supabase_url supabase_key store sid =
        .error ⟨500, "Supabase credentials not found in environment variables."⟩) ∧
      (∀ conns sender cid data, (handle_message conns sender cid data).1 =
        (sender, "You wrote: " ++ data) ::
          broadcast conns ("Client #" ++ cid ++ " says: " ++ data)) := by
  constructor
  · intro store sid
    have hb : (truthy supabase_url && truthy supabase_key) = false := by
      rcases h with h | h <;> simp [h]
    simp [get_session_endpoint, get_supabase_client, hb]
  · intro conns sender cid data
    rfl

/-- Claim C9, witness: with no URL configured, the session-lookup request
fails with the dependency's 500 error. -/
theorem C9_store_config_isolated_witness :
    get_session_endpoint none (some "key") [] 0 =
      .error ⟨500, "Supabase credentials not found in environment variables."⟩ :=
  (C9_store_config_isolated none (some "key") (Or.inl rfl)).1 [] 0

/-- Claim C10: retrieving events for a session that has no recorded events
returns success with the empty list — the endpoint explicitly returns `[]`
when the query data is empty, never a not-found error. -/
theorem C10_no_events_empty_ok (store : List EventLog) (sid : Nat)
    (h : store.filter (fun e => e.session_id == sid) = []) :
    get_events_for_session store sid = .ok [] := by
  unfold get_events_for_session eventsQuery
  rw [h]
  rfl

/-- Claim C10, witness at a concrete input: a store holding one event for
session 5 queried for session 7. -/
theorem C10_no_events_empty_ok_witness :
    get_events_for_session [⟨1, 5, 3, "message", "a"⟩] 7 = .ok [] :=
  C10_no_events_empty_ok [⟨1, 5, 3, "message", "a"⟩] 7 rfl

end App
